import Mathlib

/-!
Shallow embedding of the `crm` Django app (models in `crm/models.py`,
GraphQL mutations and queries in `crm/schema.py`).

Database rows are Lean structures, the database is a `CRMState` of lists,
and each mutation is a function that threads the state explicitly and
returns `Except` for the `GraphQLError` paths.  Monetary amounts
(`DecimalField`) are rationals; `DateTimeField` values are abstract `Nat`
timestamps.
-/

namespace Crm

/-- `crm/models.py`, `Customer`: `name` (CharField max 255), `email`
(EmailField, unique), `phone` (CharField max 20, blank allowed).  The `id`
is the auto primary key. -/
structure Customer where
  id : Nat
  name : String
  email : String
  phone : String
deriving Repr, DecidableEq

/-- `crm/models.py`, `Product`: `price` is `DecimalField(max_digits=10,
decimal_places=2)` embedded as `ℚ`; `stock` is `PositiveIntegerField`, so it
is embedded as `Nat` (non-negative by type). -/
structure Product where
  id : Nat
  name : String
  price : ℚ
  stock : Nat
deriving Repr, DecidableEq

/-- `crm/models.py`, `Order`: `customer` FK, `products` many-to-many (kept as
the list of linked product ids), `total_amount` DecimalField, `order_date`
`DateTimeField(auto_now_add=True)`. -/
structure Order where
  id : Nat
  customer_id : Nat
  product_ids : List Nat
  total_amount : ℚ
  order_date : Nat
deriving Repr, DecidableEq

/-- The database: one table per model. -/
structure CRMState where
  customers : List Customer
  products : List Product
  orders : List Order
deriving Repr, DecidableEq

/-- `crm/models.py`, `phone_validator`: regex
`^(\+\d{7,15}|\d{3}-\d{3}-\d{4})$`, implemented directly on the character
list. -/
def phone_validator (s : String) : Bool :=
  let cs := s.toList
  (match cs with
   | '+' :: rest => rest.all Char.isDigit && decide (7 ≤ rest.length) && decide (rest.length ≤ 15)
   | _ => false)
  ||
  (match cs with
   | [a, b, c, d1, e, f, g, d2, h, i, j, k] =>
     [a, b, c, e, f, g, h, i, j, k].all Char.isDigit && d1 == '-' && d2 == '-'
   | _ => false)

/-- Simplified form of the Django `EmailValidator` (used by `EmailField` during
`full_clean`): a non-empty local part, one `@`, and a domain that is either
`localhost` or contains a dot.  None of the verified claims depends on the
exact accepted language, only on "validation can fail" and on concrete
addresses like `alice@example.com` being accepted. -/
def emailOk (s : String) : Bool :=
  let cs := s.data
  let lpart := cs.takeWhile (fun c => c ≠ '@')
  match cs.dropWhile (fun c => c ≠ '@') with
  | '@' :: domain =>
    lpart ≠ [] && domain ≠ [] && !domain.contains '@' &&
    (domain == "localhost".data || domain.contains '.')
  | _ => false

/-- Lower-casing as the database collation sees it for `iexact` matching:
ASCII case folding, character by character. -/
def lowerChars (s : String) : List Char :=
  s.data.map Char.toLower

/-- `Customer.full_clean()` field validation: `name` required (non-blank,
max 255), `email` required and well-formed (max 254), `phone` blank or
matching `phone_validator`, max 20.  The `unique=True` check of `full_clean`
is subsumed by the case-insensitive existence check both mutations run
first (an exact duplicate is in particular an `iexact` duplicate). -/
def customerFullClean (name email phone : String) : Bool :=
  name ≠ "" && name.length ≤ 255 &&
  email ≠ "" && email.length ≤ 254 && emailOk email &&
  (phone == "" || (phone_validator phone && phone.length ≤ 20))

/-- `Customer.objects.filter(email__iexact=...).exists()`. -/
def emailExists (st : CRMState) (email : String) : Bool :=
  st.customers.any (fun c => lowerChars c.email == lowerChars email)

/-- `CreateCustomerInput` from `crm/schema.py` (`phone` optional). -/
structure CreateCustomerInput where
  name : String
  email : String
  phone : Option String
deriving Repr, DecidableEq

/-- Construct the `Customer(...)` instance of the mutation body; the id is
the next auto primary key, `phone=input.phone or ""`. -/
def mkCustomer (st : CRMState) (inp : CreateCustomerInput) : Customer :=
  { id := st.customers.length + 1
    name := inp.name
    email := inp.email
    phone := inp.phone.getD "" }

/-- `flatten_validation_errors` applied to the `ValidationError` raised by
`Customer.full_clean()`: one `field: message` chunk per failing field,
joined with `"; "`. -/
def customerValidationMessage (c : Customer) : String :=
  String.intercalate "; "
    ((if c.name = "" ∨ 255 < c.name.length then ["name: This field cannot be blank."] else []) ++
     (if c.email = "" ∨ 254 < c.email.length ∨ ¬ emailOk c.email then
        ["email: Enter a valid email address."] else []) ++
     (if c.phone = "" ∨ (phone_validator c.phone ∧ c.phone.length ≤ 20) then []
      else ["phone: Phone must be like +1234567890 or 123-456-7890."]))

/-- `CreateCustomer.mutate`: raises `GraphQLError` on an `iexact` email
duplicate, otherwise builds the customer, runs `full_clean`, and only on
success saves it.  The returned state is the database after the call. -/
def createCustomer (st : CRMState) (inp : CreateCustomerInput) :
    Except String Customer × CRMState :=
  if emailExists st inp.email then
    (Except.error ("Email already exists: " ++ inp.email), st)
  else
    let c := mkCustomer st inp
    if customerFullClean c.name c.email c.phone then
      (Except.ok c, { st with customers := st.customers ++ [c] })
    else
      (Except.error (customerValidationMessage c), st)

/-- One iteration of the `BulkCreateCustomers.mutate` loop body (inside the
per-item `transaction.atomic()` savepoint): the `GraphQLError` for a
duplicate already carries the `[idx]` tag. On any failure the savepoint is
rolled back, so the state is returned unchanged. -/
def bulkItem (st : CRMState) (idx : Nat) (inp : CreateCustomerInput) :
    Except String Customer × CRMState :=
  if emailExists st inp.email then
    (Except.error ("[" ++ toString idx ++ "] Email already exists: " ++ inp.email), st)
  else
    let c := mkCustomer st inp
    if customerFullClean c.name c.email c.phone then
      (Except.ok c, { st with customers := st.customers ++ [c] })
    else
      (Except.error (customerValidationMessage c), st)

/-- The `for idx, payload in enumerate(input)` loop of
`BulkCreateCustomers.mutate`: successes are appended to `created`, every
caught exception is appended to `errors` as `"[idx] " + str(e)`. -/
def bulkGo (st : CRMState) (idx : Nat) :
    List CreateCustomerInput → CRMState × List Customer × List String
  | [] => (st, [], [])
  | inp :: rest =>
    match bulkItem st idx inp with
    | (Except.ok c, st1) =>
      let r := bulkGo st1 (idx + 1) rest
      (r.1, c :: r.2.1, r.2.2)
    | (Except.error e, st1) =>
      let r := bulkGo st1 (idx + 1) rest
      (r.1, r.2.1, ("[" ++ toString idx ++ "] " ++ e) :: r.2.2)

/-- `BulkCreateCustomers.mutate`. -/
def bulkCreateCustomers (st : CRMState) (inputs : List CreateCustomerInput) :
    CRMState × List Customer × List String :=
  bulkGo st 0 inputs

/-- `full_clean` on the customer built from one bulk input (the constructed
object carries exactly the input fields, with `phone=input.phone or ""`). -/
def inputFullClean (inp : CreateCustomerInput) : Bool :=
  customerFullClean inp.name inp.email (inp.phone.getD "")

/-- The error entry the bulk loop records for a duplicate email at index
`idx`: the loop wraps `"[idx] " + str(e)` around a `GraphQLError` whose
message already starts with the same `[idx]` tag, so the index appears
twice. -/
def dupErrorString (idx : Nat) (email : String) : String :=
  "[" ++ toString idx ++ "] " ++ ("[" ++ toString idx ++ "] Email already exists: " ++ email)

/-- `CreateOrderInput` from `crm/schema.py`: required customer id, required
list of product ids, optional `order_date`. -/
structure CreateOrderInput where
  customer_id : Nat
  product_ids : List Nat
  order_date : Option Nat
deriving Repr, DecidableEq

/-- The Python `x or default` idiom applied to an aggregate result: `None` and a
zero `Decimal` are both falsy, anything else is returned as is.  Used for
`... or decimal.Decimal("0.00")` in `CreateOrder.mutate` and
`resolve_total_revenue`. -/
def pyOrDecimal (x : Option ℚ) (d : ℚ) : ℚ :=
  match x with
  | none => d
  | some v => if v = 0 then d else v

/-- `Product.objects.filter(pk__in=input.product_ids)`: each table row at
most once, kept when its primary key occurs anywhere in the request list. -/
def resolvedProducts (st : CRMState) (ids : List Nat) : List Product :=
  st.products.filter (fun p => ids.contains p.id)

/-- `queryset.aggregate(Sum("price"))`: `none` when the queryset is empty,
otherwise the sum of the column. -/
def aggregateSum (qs : List ℚ) : Option ℚ :=
  if qs.isEmpty then none else some qs.sum

/-- The value Django stores in `Order.order_date`.  `CreateOrder.mutate`
passes `input.order_date or timezone.now()` (`requested`), but the model
field is declared `DateTimeField(auto_now_add=True)`, and Django sets an
`auto_now_add` field to the current time on insert, ignoring any value
passed to `objects.create`. -/
def storedOrderDate (requested now : Nat) : Nat :=
  let _ := requested
  now

/-- `CreateOrder.mutate`: resolve the customer, reject an empty id list,
resolve the products and reject the request when the number of matching
rows differs from the length of the request list, aggregate the price sum,
and create the order with its many-to-many links.  `now` is
`timezone.now()`. -/
def createOrder (st : CRMState) (input : CreateOrderInput) (now : Nat) :
    Except String Order × CRMState :=
  match st.customers.find? (fun c => c.id == input.customer_id) with
  | none => (Except.error "Invalid customer ID", st)
  | some customer =>
    if input.product_ids.isEmpty then
      (Except.error "At least one product must be selected", st)
    else
      let products := resolvedProducts st input.product_ids
      if products.length ≠ input.product_ids.length then
        (Except.error "One or more product IDs are invalid", st)
      else
        let total := pyOrDecimal (aggregateSum (products.map Product.price)) 0
        let order : Order :=
          { id := st.orders.length + 1
            customer_id := customer.id
            product_ids := products.map Product.id
            total_amount := total
            order_date := storedOrderDate (input.order_date.getD now) now }
        (Except.ok order, { st with orders := st.orders ++ [order] })

/-- Result of `UpdateLowStockProducts.mutate`: its three output fields,
plus the database state after the call. -/
structure ULSResult where
  state : CRMState
  updated_products : List Product
  success : Bool
  message : String
deriving Repr, DecidableEq

/-- `product.save()`: overwrite the table row with the same primary key. -/
def saveProduct (st : CRMState) (p : Product) : CRMState :=
  { st with products := st.products.map (fun q => if q.id == p.id then p else q) }

/-- The `for product in low_stock_products:` loop: each selected product
gets `stock += 10`, is saved, and is appended to `updated_list`. -/
def restockLoop (st : CRMState) : List Product → CRMState × List Product
  | [] => (st, [])
  | p :: rest =>
    let p1 : Product := { p with stock := p.stock + 10 }
    let r := restockLoop (saveProduct st p1) rest
    (r.1, p1 :: r.2)

/-- `UpdateLowStockProducts.mutate`: select `stock__lt=10`; with no
candidates return success with an empty list and an informational message,
otherwise restock each candidate by 10 and report how many were updated. -/
def updateLowStock (st : CRMState) : ULSResult :=
  let low := st.products.filter (fun p => p.stock < 10)
  if low.isEmpty then
    { state := st, updated_products := [], success := true
      message := "No low stock products found." }
  else
    let r := restockLoop st low
    { state := r.1, updated_products := r.2, success := true
      message := "Successfully restocked " ++ toString r.2.length ++ " products." }

/-- `Query.resolve_total_revenue`:
`Order.objects.aggregate(...)["total_revenue"] or decimal.Decimal("0.00")`. -/
def resolveTotalRevenue (st : CRMState) : ℚ :=
  pyOrDecimal (aggregateSum (st.orders.map Order.total_amount)) 0

/-- `Decimal.quantize(Decimal("0.01"))` with a rounding (not truncating)
mode: scale to cents, round to the nearest integer, scale back. -/
def quantize2 (q : ℚ) : ℚ :=
  (round (q * 100) : ℚ) / 100

/-- `product.stock += 10` followed by `product.save()`: the restocked row. -/
def bump (p : Product) : Product :=
  { p with stock := p.stock + 10 }

/-- The cumulative effect of the restock saves on one table row: fold the
per-product row updates over the selected list. -/
def applyAll (l : List Product) (q : Product) : Product :=
  l.foldl (fun x p => if x.id == p.id then bump p else x) q

/-- Fixture database: one customer (pk 1) and two products, pk 5 at price
10.00 with stock 3 and pk 7 at price 15.00 with stock 20. -/
def stFix : CRMState :=
  { customers := [{ id := 1, name := "Alice", email := "alice@example.com", phone := "+1234567890" }]
    products := [{ id := 5, name := "Widget", price := 10, stock := 3 },
                 { id := 7, name := "Gadget", price := 15, stock := 20 }]
    orders := [] }

/-- Fixture database with a single low-stock product (stock 5). -/
def stLow : CRMState :=
  { customers := []
    products := [{ id := 1, name := "Lone", price := 1, stock := 5 }]
    orders := [] }

/-- Bulk-create input: a valid fresh customer B. -/
def inpB : CreateCustomerInput :=
  { name := "B", email := "b@x.com", phone := none }

/-- Bulk-create input: a valid fresh customer D. -/
def inpD : CreateCustomerInput :=
  { name := "D", email := "d@x.com", phone := none }

/-- Bulk-create input whose email duplicates the fixture customer up to
letter case. -/
def inpE : CreateCustomerInput :=
  { name := "E", email := "Alice@Example.com", phone := none }

/-- The order `create_order(customer_id=1, product_ids=[5,7])` stores on the
fixture database at time 0: linked to the two distinct products, with
`total_amount = 25.00`. -/
def oFix : Order :=
  { id := 1, customer_id := 1, product_ids := [5, 7], total_amount := 25, order_date := 0 }

end Crm

namespace Crm

theorem restockLoop_eq (l : List Product) : ∀ st : CRMState,
    restockLoop st l = (l.foldl (fun s p => saveProduct s (bump p)) st, l.map bump) := by
  induction l with
  | nil => intro st; rfl
  | cons p rest ih =>
    intro st
    simp only [restockLoop, List.foldl_cons, List.map_cons, ih, bump]

theorem foldl_save_state (l : List Product) : ∀ st : CRMState,
    l.foldl (fun s p => saveProduct s (bump p)) st
      = { st with products := st.products.map (applyAll l) } := by
  induction l with
  | nil =>
    intro st
    have h1 : st.products.map (applyAll []) = st.products := by
      have h2 := List.map_congr_left (l := st.products) (f := applyAll []) (g := id)
        (fun a _ => rfl)
      simpa using h2
    simp only [List.foldl_nil, h1]
  | cons p rest ih =>
    intro st
    simp only [List.foldl_cons]
    rw [ih]
    simp only [saveProduct]
    congr 1
    rw [List.map_map]
    apply List.map_congr_left
    intro q _
    rfl

theorem applyAll_of_forall_ne (l : List Product) : ∀ q : Product,
    (∀ p ∈ l, q.id ≠ p.id) → applyAll l q = q := by
  induction l with
  | nil => intro q _; rfl
  | cons p rest ih =>
    intro q h
    have hne : (q.id == p.id) = false := by
      simp only [beq_eq_false_iff_ne, ne_eq]
      exact h p (List.mem_cons_self p rest)
    simp only [applyAll, List.foldl_cons, hne, Bool.false_eq_true, if_neg, reduceIte]
    exact ih q (fun r hr => h r (List.mem_cons_of_mem p hr))

theorem applyAll_append (a b : List Product) (q : Product) :
    applyAll (a ++ b) q = applyAll b (applyAll a q) := by
  simp [applyAll, List.foldl_append]

theorem applyAll_eq_bump (l : List Product) (q : Product)
    (hq : q ∈ l) (hn : (l.map Product.id).Nodup) : applyAll l q = bump q := by
  obtain ⟨s, t, rfl⟩ := List.append_of_mem hq
  rw [List.map_append, List.map_cons, List.nodup_append] at hn
  obtain ⟨hs, hct, hdisj⟩ := hn
  have hqt : q.id ∉ t.map Product.id := (List.nodup_cons.mp hct).1
  have hqs : q.id ∉ s.map Product.id := fun hmem =>
    hdisj hmem (List.mem_cons_self _ _)
  rw [applyAll_append]
  rw [applyAll_of_forall_ne s q (fun p hp h => hqs (h ▸ List.mem_map_of_mem Product.id hp))]
  show applyAll (q :: t) q = bump q
  simp only [applyAll, List.foldl_cons, beq_self_eq_true, if_pos, reduceIte]
  have : ∀ p ∈ t, (bump q).id ≠ p.id := by
    intro p hp h
    exact hqt (h ▸ List.mem_map_of_mem Product.id hp)
  exact applyAll_of_forall_ne t (bump q) this

theorem updateLowStock_state_eq (st : CRMState)
    (h : (st.products.map Product.id).Nodup) :
    (updateLowStock st).state
      = { st with products := st.products.map (fun p => if p.stock < 10 then bump p else p) } := by
  unfold updateLowStock
  by_cases hlow : (st.products.filter (fun p => p.stock < 10)).isEmpty
  · rw [if_pos hlow]
    have hnil : st.products.filter (fun p => decide (p.stock < 10)) = [] :=
      List.isEmpty_iff.mp hlow
    have hall : ∀ p ∈ st.products, ¬ p.stock < 10 := by
      intro p hp
      have := List.filter_eq_nil_iff.mp hnil p hp
      simpa using this
    have : st.products.map (fun p => if p.stock < 10 then bump p else p) = st.products := by
      rw [show st.products = st.products.map id by simp]
      rw [List.map_map]
      apply List.map_congr_left
      intro p hp
      simp [hall p hp]
    simp [this]
  · rw [if_neg hlow]
    simp only [restockLoop_eq, foldl_save_state]
    congr 1
    apply List.map_congr_left
    intro q hqmem
    by_cases hq : q.stock < 10
    · have hmem : q ∈ st.products.filter (fun p => decide (p.stock < 10)) :=
        List.mem_filter.mpr ⟨hqmem, by simpa using hq⟩
      have hnlow : ((st.products.filter (fun p => decide (p.stock < 10))).map Product.id).Nodup :=
        ((List.filter_sublist st.products).map Product.id).nodup h
      rw [applyAll_eq_bump _ _ hmem hnlow]
      simp [hq]
    · have : ∀ p ∈ st.products.filter (fun p => decide (p.stock < 10)), q.id ≠ p.id := by
        intro p hp heq
        have hpmem := List.mem_filter.mp hp
        have : q = p := List.inj_on_of_nodup_map h hqmem hpmem.1 heq
        subst this
        exact hq (by simpa using hpmem.2)
      rw [applyAll_of_forall_ne _ _ this]
      simp [hq]

theorem updateLowStock_updated_eq (st : CRMState) :
    (updateLowStock st).updated_products
      = (st.products.filter (fun p => p.stock < 10)).map bump := by
  unfold updateLowStock
  by_cases hlow : (st.products.filter (fun p => p.stock < 10)).isEmpty
  · rw [if_pos hlow]
    rw [List.isEmpty_iff.mp hlow]
    rfl
  · rw [if_neg hlow]
    simp [restockLoop_eq]

theorem updateLowStock_success_eq (st : CRMState) :
    (updateLowStock st).success = true := by
  unfold updateLowStock
  by_cases hlow : (st.products.filter (fun p => p.stock < 10)).isEmpty
  · rw [if_pos hlow]
  · rw [if_neg hlow]

theorem updateLowStock_stock_ge (st : CRMState)
    (h : (st.products.map Product.id).Nodup) :
    ∀ p ∈ (updateLowStock st).state.products, 10 ≤ p.stock := by
  rw [updateLowStock_state_eq st h]
  intro p hp
  simp only [List.mem_map] at hp
  obtain ⟨q, _, rfl⟩ := hp
  by_cases hq : q.stock < 10
  · simp [hq, bump]
  · simp only [hq, if_neg, reduceIte]
    omega

theorem updateLowStock_of_no_low (st : CRMState)
    (h : st.products.filter (fun p => p.stock < 10) = []) :
    updateLowStock st
      = { state := st, updated_products := [], success := true
          message := "No low stock products found." } := by
  unfold updateLowStock
  rw [if_pos (List.isEmpty_iff.mpr h)]

theorem updateLowStock_second_run (st : CRMState)
    (h : (st.products.map Product.id).Nodup) :
    updateLowStock (updateLowStock st).state
      = { state := (updateLowStock st).state, updated_products := [], success := true
          message := "No low stock products found." } := by
  apply updateLowStock_of_no_low
  rw [List.filter_eq_nil_iff]
  intro p hp
  have := updateLowStock_stock_ge st h p hp
  simp
  omega

/-- C5: `update_low_stock` selects exactly the products with stock strictly
below 10; with no candidates it returns success with an empty updated list
and an informational message (and the database untouched); otherwise it
increments each selected stock by exactly 10, persists the change, and
returns all updated products with success true. -/
theorem updateLowStock_spec (st : CRMState)
    (h : (st.products.map Product.id).Nodup) :
    (updateLowStock st).success = true ∧
    (updateLowStock st).updated_products
      = (st.products.filter (fun p => p.stock < 10)).map bump ∧
    (updateLowStock st).state.products
      = st.products.map (fun p => if p.stock < 10 then bump p else p) ∧
    (st.products.filter (fun p => p.stock < 10) = [] →
      updateLowStock st
        = { state := st, updated_products := [], success := true
            message := "No low stock products found." }) ∧
    (st.products.filter (fun p => p.stock < 10) ≠ [] →
      (updateLowStock st).message
        = "Successfully restocked "
            ++ toString (st.products.filter (fun p => p.stock < 10)).length
            ++ " products.") := by
  refine ⟨updateLowStock_success_eq st, updateLowStock_updated_eq st, ?_,
    updateLowStock_of_no_low st, ?_⟩
  · rw [updateLowStock_state_eq st h]
  · intro hne
    unfold updateLowStock
    rw [if_neg (fun hemp => hne (List.isEmpty_iff.mp hemp))]
    simp [restockLoop_eq]

/-- Witness for C5 at the fixture database (product 5 is low, product 7 is
not), with the non-empty-candidates message hypothesis discharged. -/
theorem updateLowStock_spec_witness :
    (updateLowStock stFix).success = true ∧
    (updateLowStock stFix).updated_products
      = (stFix.products.filter (fun p => p.stock < 10)).map bump ∧
    (updateLowStock stFix).state.products
      = stFix.products.map (fun p => if p.stock < 10 then bump p else p) ∧
    (updateLowStock stFix).message
      = "Successfully restocked "
          ++ toString (stFix.products.filter (fun p => p.stock < 10)).length
          ++ " products." :=
  ⟨(updateLowStock_spec stFix (by decide)).1,
   (updateLowStock_spec stFix (by decide)).2.1,
   (updateLowStock_spec stFix (by decide)).2.2.1,
   (updateLowStock_spec stFix (by decide)).2.2.2.2 (by decide)⟩

/-- C3 counterexample: with a single product at stock 5, the first run
restocks it to 15, and an immediately following run updates nothing — the
product does not receive 10 more units in the second call, contradicting
"each of the two calls adds 10 units". -/
theorem updateLowStock_twice_concrete :
    (updateLowStock (updateLowStock stLow).state).updated_products = [] ∧
    (updateLowStock (updateLowStock stLow).state).state.products.map Product.stock = [15] ∧
    (updateLowStock (updateLowStock stLow).state).state.products.map Product.stock ≠ [25] := by
  refine ⟨by decide, by decide, by decide⟩

/-- C3 (amended): running `update_low_stock` twice in succession restocks
every originally-low product exactly once in total: the first call adds 10
to each product with stock below 10, and the second call finds no
candidates and changes nothing. -/
theorem updateLowStock_twice_restocks_once (st : CRMState)
    (h : (st.products.map Product.id).Nodup) :
    (updateLowStock st).state.products
      = st.products.map (fun p => if p.stock < 10 then bump p else p) ∧
    (updateLowStock (updateLowStock st).state).state = (updateLowStock st).state ∧
    (updateLowStock (updateLowStock st).state).updated_products = [] := by
  refine ⟨?_, ?_, ?_⟩
  · rw [updateLowStock_state_eq st h]
  · rw [updateLowStock_second_run st h]
  · rw [updateLowStock_second_run st h]

/-- Witness for the amended C3 at the single-low-product fixture. -/
theorem updateLowStock_twice_restocks_once_witness :
    (updateLowStock stLow).state.products
      = stLow.products.map (fun p => if p.stock < 10 then bump p else p) ∧
    (updateLowStock (updateLowStock stLow).state).state = (updateLowStock stLow).state ∧
    (updateLowStock (updateLowStock stLow).state).updated_products = [] :=
  updateLowStock_twice_restocks_once stLow (by decide)

/-- C10: stock is a `PositiveIntegerField` (a non-negative integer by the
`Nat` embedding), so after one `update_low_stock` run every product holds at
least 10 units, and an immediately following run finds no candidates. -/
theorem updateLowStock_post_no_candidates (st : CRMState)
    (h : (st.products.map Product.id).Nodup) :
    (∀ p ∈ (updateLowStock st).state.products, 10 ≤ p.stock) ∧
    (updateLowStock (updateLowStock st).state).updated_products = [] ∧
    (updateLowStock (updateLowStock st).state).message = "No low stock products found." := by
  refine ⟨updateLowStock_stock_ge st h, ?_, ?_⟩
  · rw [updateLowStock_second_run st h]
  · rw [updateLowStock_second_run st h]

/-- C1 counterexample: in the fixture database products 5 and 7 exist and
cost 10.00 and 15.00, yet `create_order(customer_id=1, product_ids=[5,5,7])`
fails with "One or more product IDs are invalid" instead of creating an
order over the two distinct products: `filter(pk__in=...)` yields 2 rows
while `len(input.product_ids)` is 3. -/
theorem createOrder_dup_ids_scenario_fails :
    (createOrder stFix { customer_id := 1, product_ids := [5, 5, 7], order_date := none } 0).1
      = Except.error "One or more product IDs are invalid" := rfl

/-- C1 (amended): duplicate product ids are not de-duplicated; because the
resolved queryset holds each matching row once, any request whose id list
contains a duplicate fails the count check and is rejected — `create_order`
never succeeds on it. -/
theorem createOrder_duplicate_ids_rejected (st : CRMState) (input : CreateOrderInput)
    (now : Nat) (hpk : (st.products.map Product.id).Nodup)
    (hdup : ¬ input.product_ids.Nodup) :
    (createOrder st input now).1.isOk = false := by
  have hlt : (resolvedProducts st input.product_ids).length < input.product_ids.length := by
    have h1 : ((resolvedProducts st input.product_ids).map Product.id).Nodup :=
      ((List.filter_sublist st.products).map Product.id).nodup hpk
    have h2 : (resolvedProducts st input.product_ids).map Product.id
        ⊆ input.product_ids.dedup := by
      intro x hx
      rw [List.mem_map] at hx
      obtain ⟨p, hp, rfl⟩ := hx
      have hc := (List.mem_filter.mp hp).2
      rw [List.mem_dedup]
      simpa using hc
    have h3 := (h1.subperm h2).length_le
    rw [List.length_map] at h3
    have h5 := (List.dedup_sublist input.product_ids).length_le
    rcases Nat.lt_or_ge input.product_ids.dedup.length input.product_ids.length with h | h
    · omega
    · exact absurd
        ((List.dedup_sublist input.product_ids).eq_of_length (Nat.le_antisymm h5 h) ▸
          List.nodup_dedup input.product_ids) hdup
  unfold createOrder
  cases hfind : st.customers.find? (fun c => c.id == input.customer_id) with
  | none => rfl
  | some customer =>
    simp only
    by_cases hemp : input.product_ids.isEmpty = true
    · rw [if_pos hemp]
      rfl
    · rw [if_neg hemp]
      rw [if_pos (Nat.ne_of_lt hlt)]
      rfl

/-- Witness for the amended C1: the `[5,5,7]` request of the scenario is
rejected. -/
theorem createOrder_duplicate_ids_rejected_witness :
    (createOrder stFix { customer_id := 1, product_ids := [5, 5, 7], order_date := none } 0).1.isOk
      = false :=
  createOrder_duplicate_ids_rejected stFix
    { customer_id := 1, product_ids := [5, 5, 7], order_date := none } 0
    (by decide) (by decide)

/-- C4: the code passes `input.order_date or timezone.now()` to
`Order.objects.create`, but `Order.order_date` is declared
`DateTimeField(auto_now_add=True)`, so Django overwrites it with the
current time on insert: with supplied `order_date = 1111` and current time
`2222`, the stored order carries `2222`, not the caller-supplied value. -/
theorem createOrder_order_date_ignores_supplied :
    ((createOrder stFix { customer_id := 1, product_ids := [5], order_date := some 1111 } 2222).1.map
      Order.order_date) = Except.ok 2222 ∧
    ((createOrder stFix { customer_id := 1, product_ids := [5], order_date := some 1111 } 2222).1.map
      Order.order_date) ≠ Except.ok 1111 := by
  constructor
  · rfl
  · intro h
    have h2 : (Except.ok 2222 : Except String Nat) = Except.ok 1111 := h
    simp at h2

/-- C8: the total-revenue resolver returns the sum of all orders
`total_amount`, and exactly 0 when no orders exist (the aggregate returns
`None`, coalesced by `or Decimal("0.00")`). -/
theorem resolveTotalRevenue_spec (st : CRMState) :
    resolveTotalRevenue st = (st.orders.map Order.total_amount).sum ∧
    (st.orders = [] → resolveTotalRevenue st = 0) := by
  constructor
  · unfold resolveTotalRevenue aggregateSum pyOrDecimal
    cases horders : st.orders with
    | nil => simp
    | cons o rest =>
      simp only [List.map_cons, List.isEmpty_cons, Bool.false_eq_true, if_false]
      split
      · rename_i hzero
        exact hzero.symm
      · rfl
  · intro h
    unfold resolveTotalRevenue aggregateSum pyOrDecimal
    rw [h]
    simp

/-- Witness for C8: the fixture database has no orders and reports revenue
0, which also equals the (empty) sum. -/
theorem resolveTotalRevenue_spec_witness :
    resolveTotalRevenue stFix = (stFix.orders.map Order.total_amount).sum ∧
    resolveTotalRevenue stFix = 0 :=
  ⟨(resolveTotalRevenue_spec stFix).1, (resolveTotalRevenue_spec stFix).2 rfl⟩

theorem bulkGo_lengths (inputs : List CreateCustomerInput) : ∀ (st : CRMState) (idx : Nat),
    ((bulkGo st idx inputs).2.1).length + ((bulkGo st idx inputs).2.2).length
      = inputs.length := by
  induction inputs with
  | nil => intro st idx; rfl
  | cons inp rest ih =>
    intro st idx
    rw [bulkGo]
    rcases hbi : bulkItem st idx inp with ⟨e | c, st1⟩
    · dsimp only
      have h1 := ih st1 (idx + 1)
      simp only [List.length_cons]
      omega
    · dsimp only
      have h1 := ih st1 (idx + 1)
      simp only [List.length_cons]
      omega

theorem den_one_add {x y : ℚ} (hx : x.den = 1) (hy : y.den = 1) : (x + y).den = 1 := by
  have hx1 := (Rat.den_eq_one_iff x).mp hx
  have hy1 := (Rat.den_eq_one_iff y).mp hy
  rw [← hx1, ← hy1, ← Int.cast_add]
  exact Rat.den_intCast _

theorem sum_den_one (l : List ℚ) (h : ∀ q ∈ l, (q * 100).den = 1) :
    (l.sum * 100).den = 1 := by
  induction l with
  | nil =>
    rw [List.sum_nil, zero_mul]
    rfl
  | cons q rest ih =>
    rw [List.sum_cons, add_mul]
    exact den_one_add (h q (List.mem_cons_self q rest))
      (ih (fun r hr => h r (List.mem_cons_of_mem q hr)))

theorem quantize2_den_one {q : ℚ} (h : (q * 100).den = 1) : quantize2 q = q := by
  have h1 : ((q * 100).num : ℚ) = q * 100 := (Rat.den_eq_one_iff _).mp h
  unfold quantize2
  rw [← h1, round_intCast, h1]
  field_simp

/-- C6: for every successfully created order, the stored `total_amount`
equals the quantized (round-to-nearest at 2 decimal places) sum of the
distinct resolved products prices — the prices coming from a
`DecimalField(decimal_places=2)` column, so each is an integer number of
cents — the linked product ids are distinct, and the resolved set only
depends on the set of requested ids, not on duplicates. -/
theorem createOrder_total_quantized (st : CRMState) (input : CreateOrderInput) (now : Nat)
    (hpk : (st.products.map Product.id).Nodup)
    (hcents : ∀ p ∈ st.products, (p.price * 100).den = 1) :
    ∀ o : Order, (createOrder st input now).1 = Except.ok o →
      o.total_amount
        = quantize2 (((resolvedProducts st input.product_ids).map Product.price).sum) ∧
      o.product_ids.Nodup ∧
      resolvedProducts st input.product_ids
        = resolvedProducts st input.product_ids.dedup := by
  intro o hok
  have hsetonly : resolvedProducts st input.product_ids
      = resolvedProducts st input.product_ids.dedup := by
    apply List.filter_congr
    intro p _
    simp [List.mem_dedup]
  have hnd : ((resolvedProducts st input.product_ids).map Product.id).Nodup :=
    ((List.filter_sublist st.products).map Product.id).nodup hpk
  unfold createOrder at hok
  cases hfind : st.customers.find? (fun c => c.id == input.customer_id) with
  | none =>
    rw [hfind] at hok
    simp at hok
  | some customer =>
    rw [hfind] at hok
    dsimp only at hok
    by_cases hemp : input.product_ids.isEmpty = true
    · rw [if_pos hemp] at hok
      simp at hok
    · rw [if_neg hemp] at hok
      by_cases hlen :
          (resolvedProducts st input.product_ids).length ≠ input.product_ids.length
      · rw [if_pos hlen] at hok
        simp at hok
      · rw [if_neg hlen] at hok
        dsimp only at hok
        have ho := (Except.ok.inj hok).symm
        subst ho
        refine ⟨?_, hnd, hsetonly⟩
        have hidsne : input.product_ids ≠ [] := by
          intro hnil
          exact hemp (by rw [hnil]; rfl)
        have hresne : resolvedProducts st input.product_ids ≠ [] := by
          intro hnil
          rw [not_not] at hlen
          rw [hnil] at hlen
          exact hidsne (List.length_eq_zero.mp hlen.symm)
        have hpne : (resolvedProducts st input.product_ids).map Product.price ≠ [] := by
          simpa using hresne
        show pyOrDecimal
            (aggregateSum ((resolvedProducts st input.product_ids).map Product.price)) 0
          = quantize2 (((resolvedProducts st input.product_ids).map Product.price).sum)
        unfold aggregateSum pyOrDecimal
        rw [if_neg (fun he => hpne (List.isEmpty_iff.mp he))]
        dsimp only
        by_cases hz : ((resolvedProducts st input.product_ids).map Product.price).sum = 0
        · rw [if_pos hz, hz]
          unfold quantize2
          norm_num
        · rw [if_neg hz]
          refine (quantize2_den_one (sum_den_one _ ?_)).symm
          intro q hq
          rw [List.mem_map] at hq
          obtain ⟨p, hp, rfl⟩ := hq
          exact hcents p (List.mem_filter.mp hp).1

/-- Witness for C6: the fixture order over the two distinct products 5 and
7 carries `total_amount = 25.00`, the quantized sum of their prices. -/
theorem createOrder_total_quantized_witness :
    oFix.total_amount
      = quantize2 (((resolvedProducts stFix [5, 7]).map Product.price).sum) ∧
    oFix.product_ids.Nodup ∧
    resolvedProducts stFix [5, 7] = resolvedProducts stFix ([5, 7] : List Nat).dedup :=
  createOrder_total_quantized stFix
    { customer_id := 1, product_ids := [5, 7], order_date := none } 0
    (by decide)
    (by
      intro p hp
      simp only [stFix, List.mem_cons, List.not_mem_nil, or_false] at hp
      rcases hp with rfl | rfl
      · rw [show ((10 : ℚ) * 100) = 1000 by norm_num]
        rfl
      · rw [show ((15 : ℚ) * 100) = 1500 by norm_num]
        rfl)
    oFix
    (by
      unfold createOrder
      norm_num [stFix, resolvedProducts, aggregateSum, pyOrDecimal, storedOrderDate, oFix])

/-- C7: `create_customer` fails with the duplicate-email `GraphQLError`
whenever an existing customer has the same email up to letter case, and on
any failure (duplicate or validation) nothing is written: the returned
database equals the one passed in. -/
theorem createCustomer_duplicate_and_no_write (st : CRMState) (inp : CreateCustomerInput) :
    ((∃ c ∈ st.customers, lowerChars c.email = lowerChars inp.email) →
      createCustomer st inp
        = (Except.error ("Email already exists: " ++ inp.email), st)) ∧
    (∀ e : String, (createCustomer st inp).1 = Except.error e →
      (createCustomer st inp).2 = st) := by
  constructor
  · rintro ⟨c, hc, he⟩
    have hex : emailExists st inp.email = true := by
      rw [emailExists, List.any_eq_true]
      exact ⟨c, hc, by simp [he]⟩
    unfold createCustomer
    rw [if_pos hex]
  · intro e
    unfold createCustomer
    by_cases h1 : emailExists st inp.email = true
    · rw [if_pos h1]
      intro _
      rfl
    · rw [if_neg h1]
      dsimp only
      by_cases h2 : customerFullClean (mkCustomer st inp).name (mkCustomer st inp).email
          (mkCustomer st inp).phone = true
      · rw [if_pos h2]
        intro hco
        simp at hco
      · rw [if_neg h2]
        intro _
        rfl

/-- Witness for C7: on the fixture database holding `alice@example.com`, a
second creation with `ALICE@EXAMPLE.COM` fails with the duplicate error and
leaves the database unchanged. -/
theorem createCustomer_duplicate_and_no_write_witness :
    createCustomer stFix { name := "Bob", email := "ALICE@EXAMPLE.COM", phone := none }
      = (Except.error "Email already exists: ALICE@EXAMPLE.COM", stFix) ∧
    (createCustomer stFix { name := "Bob", email := "ALICE@EXAMPLE.COM", phone := none }).2
      = stFix :=
  ⟨(createCustomer_duplicate_and_no_write stFix
      { name := "Bob", email := "ALICE@EXAMPLE.COM", phone := none }).1
      ⟨{ id := 1, name := "Alice", email := "alice@example.com", phone := "+1234567890" },
        by decide, by decide⟩,
   (createCustomer_duplicate_and_no_write stFix
      { name := "Bob", email := "ALICE@EXAMPLE.COM", phone := none }).2
      "Email already exists: ALICE@EXAMPLE.COM" (by rfl)⟩

/-- C9: every bulk-create input lands in exactly one of the two returned
lists — a created customer or an index-tagged error — so the lengths of the
created list and the error list always add up to the input length. -/
theorem bulkCreateCustomers_partition (st : CRMState) (inputs : List CreateCustomerInput) :
    ((bulkCreateCustomers st inputs).2.1).length
      + ((bulkCreateCustomers st inputs).2.2).length = inputs.length :=
  bulkGo_lengths inputs st 0

theorem bulkItem_ok (st : CRMState) (idx : Nat) (inp : CreateCustomerInput)
    (hdup : emailExists st inp.email = false) (hcl : inputFullClean inp = true) :
    bulkItem st idx inp
      = (Except.ok (mkCustomer st inp),
         { st with customers := st.customers ++ [mkCustomer st inp] }) := by
  unfold bulkItem
  rw [if_neg (by simp [hdup])]
  dsimp only
  rw [if_pos (show customerFullClean (mkCustomer st inp).name (mkCustomer st inp).email
      (mkCustomer st inp).phone = true from hcl)]

theorem bulkItem_dup (st : CRMState) (idx : Nat) (inp : CreateCustomerInput)
    (hdup : emailExists st inp.email = true) :
    bulkItem st idx inp
      = (Except.error ("[" ++ toString idx ++ "] Email already exists: " ++ inp.email), st) := by
  unfold bulkItem
  rw [if_pos hdup]

theorem emailExists_snoc (st : CRMState) (c : Customer) (email : String) :
    emailExists { st with customers := st.customers ++ [c] } email
      = (emailExists st email || (lowerChars c.email == lowerChars email)) := by
  simp [emailExists, List.any_append]

theorem bulkGo_all_ok (inputs : List CreateCustomerInput) : ∀ (st : CRMState) (idx : Nat),
    (∀ inp ∈ inputs, inputFullClean inp = true ∧ emailExists st inp.email = false) →
    List.Pairwise (fun a b => (lowerChars a.email == lowerChars b.email) = false) inputs →
    (bulkGo st idx inputs).1.customers = st.customers ++ (bulkGo st idx inputs).2.1 ∧
    (bulkGo st idx inputs).2.2 = [] ∧
    ((bulkGo st idx inputs).2.1).map Customer.email
      = inputs.map CreateCustomerInput.email := by
  induction inputs with
  | nil =>
    intro st idx _ _
    exact ⟨by simp [bulkGo], rfl, rfl⟩
  | cons inp rest ih =>
    intro st idx hok hpw
    have h0 := hok inp (List.mem_cons_self _ _)
    rw [bulkGo, bulkItem_ok st idx inp h0.2 h0.1]
    dsimp only
    have hpw1 := List.pairwise_cons.mp hpw
    have hrest : ∀ r ∈ rest, inputFullClean r = true ∧
        emailExists { st with customers := st.customers ++ [mkCustomer st inp] } r.email
          = false := by
      intro r hr
      refine ⟨(hok r (List.mem_cons_of_mem _ hr)).1, ?_⟩
      rw [emailExists_snoc, (hok r (List.mem_cons_of_mem _ hr)).2, Bool.false_or]
      exact hpw1.1 r hr
    obtain ⟨ha, hb, hc⟩ :=
      ih { st with customers := st.customers ++ [mkCustomer st inp] } (idx + 1) hrest hpw1.2
    refine ⟨?_, hb, ?_⟩
    · rw [ha]
      simp [List.append_assoc]
    · rw [List.map_cons, hc]
      rfl

theorem bulkGo_one_dup (pre : List CreateCustomerInput) :
    ∀ (dup : CreateCustomerInput) (post : List CreateCustomerInput)
      (st : CRMState) (idx : Nat),
    emailExists st dup.email = true →
    (∀ inp ∈ pre ++ post, inputFullClean inp = true ∧ emailExists st inp.email = false) →
    List.Pairwise (fun a b => (lowerChars a.email == lowerChars b.email) = false)
      (pre ++ post) →
    (bulkGo st idx (pre ++ dup :: post)).1.customers
        = st.customers ++ (bulkGo st idx (pre ++ dup :: post)).2.1 ∧
    ((bulkGo st idx (pre ++ dup :: post)).2.1).map Customer.email
        = (pre ++ post).map CreateCustomerInput.email ∧
    (bulkGo st idx (pre ++ dup :: post)).2.2
        = [dupErrorString (idx + pre.length) dup.email] := by
  induction pre with
  | nil =>
    intro dup post st idx hdup hok hpw
    rw [List.nil_append] at hok hpw
    rw [List.nil_append, bulkGo, bulkItem_dup st idx dup hdup]
    dsimp only
    obtain ⟨ha, hb, hc⟩ := bulkGo_all_ok post st (idx + 1) hok hpw
    refine ⟨ha, hc, ?_⟩
    rw [hb]
    simp [dupErrorString]
  | cons a pre ih =>
    intro dup post st idx hdup hok hpw
    rw [List.cons_append] at hpw
    have hpw1 := List.pairwise_cons.mp hpw
    have h0 := hok a (by simp)
    rw [List.cons_append, bulkGo, bulkItem_ok st idx a h0.2 h0.1]
    dsimp only
    have hdup1 : emailExists
        { st with customers := st.customers ++ [mkCustomer st a] } dup.email = true := by
      rw [emailExists_snoc, hdup, Bool.true_or]
    have hok1 : ∀ inp ∈ pre ++ post, inputFullClean inp = true ∧
        emailExists { st with customers := st.customers ++ [mkCustomer st a] } inp.email
          = false := by
      intro r hr
      have hmem : r ∈ (a :: pre) ++ post := by
        rw [List.cons_append]
        exact List.mem_cons_of_mem _ hr
      refine ⟨(hok r hmem).1, ?_⟩
      rw [emailExists_snoc, (hok r hmem).2, Bool.false_or]
      exact hpw1.1 r hr
    obtain ⟨ha, hb, hc⟩ :=
      ih dup post { st with customers := st.customers ++ [mkCustomer st a] } (idx + 1)
        hdup1 hok1 hpw1.2
    refine ⟨?_, ?_, ?_⟩
    · rw [ha]
      simp [List.append_assoc]
    · rw [List.map_cons, hb, List.cons_append, List.map_cons]
      rfl
    · rw [hc, List.length_cons]
      have harith : idx + 1 + pre.length = idx + (pre.length + 1) := by omega
      rw [harith]

/-- C2: a bulk-create batch whose only failing input is a single duplicate
(against pre-existing data) of the form `pre ++ [dup] ++ post`, all other
inputs valid with pairwise-distinct emails, yields `len(input) - 1` created
customers, exactly one error entry tagged with the duplicate index
`pre.length`, and commits every non-duplicate entry: the final customer
table is the initial one plus exactly the created customers, in order. -/
theorem bulkCreateCustomers_one_duplicate (st : CRMState)
    (pre post : List CreateCustomerInput) (dup : CreateCustomerInput)
    (hdup : emailExists st dup.email = true)
    (hok : ∀ inp ∈ pre ++ post, inputFullClean inp = true ∧
      emailExists st inp.email = false)
    (hpw : List.Pairwise (fun a b => (lowerChars a.email == lowerChars b.email) = false)
      (pre ++ post)) :
    ((bulkCreateCustomers st (pre ++ dup :: post)).2.1).length
        = (pre ++ dup :: post).length - 1 ∧
    (bulkCreateCustomers st (pre ++ dup :: post)).2.2
        = [dupErrorString pre.length dup.email] ∧
    (bulkCreateCustomers st (pre ++ dup :: post)).1.customers
        = st.customers ++ (bulkCreateCustomers st (pre ++ dup :: post)).2.1 ∧
    ((bulkCreateCustomers st (pre ++ dup :: post)).2.1).map Customer.email
        = (pre ++ post).map CreateCustomerInput.email := by
  obtain ⟨ha, hb, hc⟩ := bulkGo_one_dup pre dup post st 0 hdup hok hpw
  refine ⟨?_, ?_, ha, hb⟩
  · have hlen := congrArg List.length hb
    rw [List.length_map, List.length_map] at hlen
    rw [bulkCreateCustomers, hlen]
    simp [List.length_append]
  · rw [bulkCreateCustomers, hc, Nat.zero_add]

/-- Witness for C2: against the fixture database (which already holds
`alice@example.com`), the batch `[B, duplicate Alice, D]` creates customers
for B and D, reports one error tagged `[1]`, and commits B and D. -/
theorem bulkCreateCustomers_one_duplicate_witness :
    ((bulkCreateCustomers stFix ([inpB] ++ inpE :: [inpD])).2.1).length
      = ([inpB] ++ inpE :: [inpD]).length - 1 ∧
    (bulkCreateCustomers stFix ([inpB] ++ inpE :: [inpD])).2.2
      = [dupErrorString (List.length [inpB]) inpE.email] ∧
    (bulkCreateCustomers stFix ([inpB] ++ inpE :: [inpD])).1.customers
      = stFix.customers ++ (bulkCreateCustomers stFix ([inpB] ++ inpE :: [inpD])).2.1 ∧
    ((bulkCreateCustomers stFix ([inpB] ++ inpE :: [inpD])).2.1).map Customer.email
      = ([inpB] ++ [inpD]).map CreateCustomerInput.email :=
  bulkCreateCustomers_one_duplicate stFix [inpB] [inpD] inpE
    (by decide) (by decide) (by decide)

/-- Witness for C10 at the fixture database: the originally-low product 5
(stock 3) holds 13 units after the run, and the second run finds no
candidates. -/
theorem updateLowStock_post_no_candidates_witness :
    10 ≤ ({ id := 5, name := "Widget", price := 10, stock := 13 } : Product).stock ∧
    (updateLowStock (updateLowStock stFix).state).updated_products = [] ∧
    (updateLowStock (updateLowStock stFix).state).message = "No low stock products found." :=
  ⟨(updateLowStock_post_no_candidates stFix (by decide)).1
      { id := 5, name := "Widget", price := 10, stock := 13 } (by decide),
   (updateLowStock_post_no_candidates stFix (by decide)).2.1,
   (updateLowStock_post_no_candidates stFix (by decide)).2.2⟩

end Crm
